import Mathlib

/-!
Shallow embedding of `VRC_OSC_ChatBox_Stats_NvidiaAndAMD.py`: the sensor
readers, the message composer, the transmission loop and the one-shot chat
sender, together with theorems checking the natural-language specification
against this embedding.

Conventions of the embedding:
* Python strings are Lean `String`s; Python `len` and slicing count Unicode
  code points, exactly like `String.length` / `List.take` on `String.data`.
* External effects (files, the D-Bus session bus, subprocesses, the wall
  clock, the network) are passed in as explicit values; a `none` input marks
  the effect raising an exception where the code could observe one.
* Python floats are modelled as exact decimals: a parsed literal is a pair
  (mantissa, number of decimal digits), arithmetic on them is exact integer
  arithmetic on scaled values, and `round(x, n)` is round-half-to-even on the
  exact value.  `str()` of such a value prints the shortest decimal form with
  at least one fractional digit, as Python does for these inputs.
-/

/-- Python `str.strip` whitespace test (`\x0b` and `\x0c` included). -/
def pyIsSpace (c : Char) : Bool :=
  c = ' ' || c = '\t' || c = '\n' || c = '\r' || c = '\x0b' || c = '\x0c'

/-- Split a character list at every character satisfying `p`, keeping empty
groups — the behaviour of Python `str.split(sep)` for a one-character `sep`
when `p` tests for that character. -/
def pySplitOn (p : Char → Bool) : List Char → List (List Char)
  | [] => [[]]
  | c :: cs =>
    match pySplitOn p cs with
    | [] => [[]]
    | g :: gs => if p c then [] :: g :: gs else (c :: g) :: gs

/-- Python `str.strip()` on a character list. -/
def pyStripList (l : List Char) : List Char :=
  ((l.dropWhile pyIsSpace).reverse.dropWhile pyIsSpace).reverse

/-- Python `str.strip()`. -/
def pyStrip (s : String) : String :=
  ⟨pyStripList s.data⟩

/-- Python `str.split()` with no argument: split on whitespace runs and drop
empty groups. -/
def pySplitWs (l : List Char) : List (List Char) :=
  (pySplitOn pyIsSpace l).filter (fun g => g ≠ [])

/-- Python `str.split(', ')` as used on the `nvidia-smi` CSV row: split on the
two-character separator, left to right, non-overlapping. -/
def splitCommaSpace : List Char → List (List Char)
  | [] => [[]]
  | ',' :: ' ' :: rest => [] :: splitCommaSpace rest
  | x :: rest =>
    match splitCommaSpace rest with
    | [] => [[]]
    | g :: gs => (x :: g) :: gs

/-- Python `str.replace('mb', '')` on an (already lowercased) character list:
remove every non-overlapping occurrence of `mb`, left to right. -/
def removeMB : List Char → List Char
  | [] => []
  | 'm' :: 'b' :: rest => removeMB rest
  | x :: rest => x :: removeMB rest

/-- The tail of a character list after its first occurrence of `c`; the list
itself when `c` does not occur.  Models `s.split(c, 1)[1]` guarded by
`c in s`. -/
def dropThroughFirst (c : Char) : List Char → List Char
  | [] => []
  | x :: xs => if x = c then xs else dropThroughFirst c xs

/-- Numeric value of a list of decimal digit characters. -/
def digitsVal (l : List Char) : ℕ :=
  l.foldl (fun a c => 10 * a + (c.toNat - 48)) 0

/-- An exact decimal number: `mant / 10 ^ dec`.  Stands in for the Python
float produced by `float()` on plain decimal notation. -/
structure PyDec where
  mant : ℤ
  dec : ℕ
deriving DecidableEq, Repr

/-- Python `float()` on a character list, for plain decimal notation
(optional sign, digits, optional single point; surrounding whitespace
allowed): `none` models `ValueError`.  Exponent, infinity and underscore
forms do not occur in this program's inputs and are treated as errors. -/
def pyFloatList (l : List Char) : Option PyDec :=
  let l := pyStripList l
  let sl : ℤ × List Char :=
    match l with
    | '-' :: r => (-1, r)
    | '+' :: r => (1, r)
    | _ => (1, l)
  match pySplitOn (fun c => c = '.') sl.2 with
  | [ip] =>
    if ip ≠ [] ∧ ip.all Char.isDigit then some ⟨sl.1 * digitsVal ip, 0⟩ else none
  | [ip, fp] =>
    if (ip ≠ [] ∨ fp ≠ []) ∧ ip.all Char.isDigit ∧ fp.all Char.isDigit then
      some ⟨sl.1 * (digitsVal ip * 10 ^ fp.length + digitsVal fp), fp.length⟩
    else none
  | _ => none

/-- Python `int()` on a string (optional sign and surrounding whitespace,
decimal digits only): `none` models `ValueError`. -/
def pyIntStr (s : String) : Option ℤ :=
  let l := pyStripList s.data
  let sl : ℤ × List Char :=
    match l with
    | '-' :: r => (-1, r)
    | '+' :: r => (1, r)
    | _ => (1, l)
  if sl.2 ≠ [] ∧ sl.2.all Char.isDigit then some (sl.1 * digitsVal sl.2) else none

/-- Python `round((n / d) * scale⁻¹ ...)`: round-half-to-even of
`scale * n / d` for `0 < d`, returning the value scaled by `scale`.  With
`scale = 100` this is `round(n/d, 2)` in hundredths, with `scale = 10` it is
`round(n/d, 1)` in tenths. -/
def roundToScaled (scale n d : ℤ) : ℤ :=
  let a := scale * n
  let q := a / d
  let r := a % d
  if 2 * r < d then q else if d < 2 * r then q + 1 else if q % 2 = 0 then q else q + 1

/-- Python `str()` of a nonnegative float holding an exact number of
hundredths `n`: integer part, then the fractional digits with the trailing
zero dropped, but always at least one fractional digit (`str(8.0) = "8.0"`,
`str(0.5) = "0.5"`, `str(0.05) = "0.05"`). -/
def pyStrHundredths (n : ℤ) : String :=
  let ip := n / 100
  let fr := n % 100
  if fr = 0 then toString ip ++ ".0"
  else if fr % 10 = 0 then toString ip ++ "." ++ toString (fr / 10)
  else if fr < 10 then toString ip ++ ".0" ++ toString fr
  else toString ip ++ "." ++ toString fr

/-- Python `startswith`. -/
def pyStartsWith (p s : String) : Bool :=
  p.data.isPrefixOf s.data

/-- Python `in` on strings: `pat` occurs as a contiguous substring of `s`. -/
def containsStr (pat s : String) : Bool :=
  s.data.tails.any (fun t => pat.data.isPrefixOf t)

/-- Python slicing `s[:n]`. -/
def pySlice (s : String) (n : ℕ) : String :=
  ⟨s.data.take n⟩

/-! ## Sensor readers -/

/-- `get_linux_distro`: the lines of `/etc/os-release` as `readlines()`
yields them, or `none` when opening the file raises `FileNotFoundError`.
The last `NAME=` / `VERSION=` lines win; a missing key leaves the empty
string.  `line.strip().split("=")[1].replace('"', '')` is the value after
the first `=` of the stripped line, with every double quote removed. -/
def get_linux_distro (osReleaseLines : Option (List String)) : String :=
  match osReleaseLines with
  | none => "🐧 Unknown Linux Distro"
  | some lines =>
    let nv := lines.foldl
      (fun (acc : String × String) line =>
        if pyStartsWith "NAME=" line then
          (⟨(dropThroughFirst '=' (pyStripList line.data)).filter (fun c => c ≠ '"')⟩, acc.2)
        else if pyStartsWith "VERSION=" line then
          (acc.1, ⟨(dropThroughFirst '=' (pyStripList line.data)).filter (fun c => c ≠ '"')⟩)
        else acc)
      ("", "")
    "🐧 " ++ nv.1 ++ " " ++ nv.2

/-- The MPRIS metadata mapping a player's `Get` call can return: the
`xesam:title` and `xesam:artist` entries, each possibly absent. -/
structure MediaMeta where
  title : Option String
  artist : Option (List String)

/-- One enumerated MPRIS player: its `Get` call either raises
`dbus.DBusException` or returns a metadata mapping. -/
inductive PlayerQ where
  | raises
  | meta (m : MediaMeta)

/-- The session bus as `get_media_info` observes it: `none` when the bus is
unreachable (a `dbus.DBusException` from `SessionBus()` / `list_names()`),
otherwise the players whose names carry the `org.mpris.MediaPlayer2.`
well-known name, in enumeration order. -/
abbrev MediaBus : Type := Option (List PlayerQ)

/-- A Python exception escaping `get_media_info`: `metadata.get('xesam:artist',
['Unknown Artist'])[0]` raises `IndexError` on an empty artist list, and no
enclosing handler catches it (both handlers catch only `dbus.DBusException`). -/
inductive PyError where
  | indexError
deriving DecidableEq, Repr

/-- The `for player_name in players` loop of `get_media_info`: first player
whose `Get` succeeds yields the fragment (title clipped to 25 code points,
first artist clipped to 15); a `DBusException` moves to the next player. -/
def mediaLoop : List PlayerQ → Except PyError (Option String)
  | [] => .ok none
  | .raises :: rest => mediaLoop rest
  | .meta m :: _ =>
    let title := pySlice (m.title.getD "Unknown Title") 25
    match m.artist.getD ["Unknown Artist"] with
    | [] => .error .indexError
    | a :: _ => .ok (some ("🎵 " ++ title ++ " - " ++ pySlice a 15))

/-- `get_media_info`. -/
def get_media_info (bus : MediaBus) : Except PyError String :=
  match bus with
  | none => .ok "🎵 No media player detected"
  | some players =>
    match mediaLoop players with
    | .error e => .error e
    | .ok (some frag) => .ok frag
    | .ok none => .ok "🎵 No media playing"

/-- `get_gpu_usage` (NVIDIA): input is `result.stdout`, or `none` when the
`nvidia-smi` subprocess call raises.  The CSV row is split on `', '`; a row
without exactly three fields is the parse-error fragment; a field that
`int()` rejects raises `ValueError`, caught by the outer handler. -/
def get_gpu_usage (stdout : Option String) : String :=
  match stdout with
  | none => "🎮 No GPU or error retrieving GPU stats"
  | some out =>
    match splitCommaSpace (pyStripList out.data) with
    | [g, mfree, mtotal] =>
      match pyIntStr ⟨mfree⟩, pyIntStr ⟨mtotal⟩ with
      | some fr, some tot =>
        let gpu_memory_free := roundToScaled 10 fr 1024
        let gpu_memory_total := roundToScaled 10 tot 1024
        let gpu_memory_used := gpu_memory_total - gpu_memory_free
        "🎮 " ++ (⟨g⟩ : String) ++ "% | " ++ pyStrHundredths (10 * gpu_memory_used) ++
          "GB / " ++ pyStrHundredths (10 * gpu_memory_total) ++ "GB"
      | _, _ => "🎮 No GPU or error retrieving GPU stats"
    | _ => "🎮 Error retrieving GPU stats"

/-- The comma-separated parts `get_amdgpu_usage` scans: `radeontop` stdout
stripped, cut after the first colon (when one occurs) and stripped again,
split on commas, each part stripped. -/
def amdParts (out : String) : List (List Char) :=
  let output := pyStripList out.data
  let output :=
    if output.contains ':' then pyStripList (dropThroughFirst ':' output) else output
  (pySplitOn (fun c => c = ',') output).map pyStripList

/-- The `for part in parts` scan of `get_amdgpu_usage`, threading the
`gpu_usage` and `vram_mb_used` locals; `none` models `float()` raising
`ValueError` on a `vram` part, which aborts the whole scan. -/
def amdScan : List (List Char) → Option (List Char) → Option PyDec →
    Option (Option (List Char) × Option PyDec)
  | [], g, v => some (g, v)
  | part :: rest, g, v =>
    match pySplitWs part with
    | [] => amdScan rest g v
    | t0 :: ts =>
      let key := t0.map Char.toLower
      if key = "gpu".data then
        match ts with
        | t1 :: _ => amdScan rest (some (t1.filter (fun c => c ≠ '%'))) v
        | [] => amdScan rest g v
      else if key = "vram".data then
        match ts with
        | _ :: t2 :: _ =>
          match pyFloatList (removeMB (t2.map Char.toLower)) with
          | some q => amdScan rest g (some q)
          | none => none
        | _ => amdScan rest g v
      else amdScan rest g v

/-- A part with key `vram` and at least three whitespace tokens occurs —
the shape on which the code's `elif` actually assigns `vram_mb_used`. -/
def hasVram (parts : List (List Char)) : Bool :=
  parts.any (fun p =>
    match pySplitWs p with
    | t0 :: _ :: _ :: _ => t0.map Char.toLower = "vram".data
    | _ => false)

/-- `get_amdgpu_usage`: inputs are `radeontop` stdout (`none` when the
subprocess call raises or times out) and the content of
`/sys/class/drm/card0/device/mem_info_vram_total` (`none` when opening it
raises).  Total VRAM is `round(bytes / 1024³, 2)` GB, used VRAM is
`round(mb / 1024, 2)` GB, both printed with Python `str`. -/
def get_amdgpu_usage (stdout : Option String) (vramTotalFile : Option String) : String :=
  match stdout with
  | none => "🎮 No GPU or error retrieving GPU stats"
  | some out =>
    match amdScan (amdParts out) none none with
    | none => "🎮 No GPU or error retrieving GPU stats"
    | some (gpu_usage, vram_mb_used) =>
      match gpu_usage, vram_mb_used with
      | some g, some v =>
        match vramTotalFile with
        | none => "🎮 No GPU or error retrieving GPU stats"
        | some content =>
          match pyIntStr content with
          | none => "🎮 No GPU or error retrieving GPU stats"
          | some vram_total_bytes =>
            let vram_total_gb := roundToScaled 100 vram_total_bytes (1024 ^ 3)
            let vram_used_gb := roundToScaled 100 v.mant (10 ^ v.dec * 1024)
            "🎮 " ++ (⟨g⟩ : String) ++ "% | " ++ pyStrHundredths vram_used_gb ++
              "GB / " ++ pyStrHundredths vram_total_gb ++ "GB"
      | _, _ => "🎮 Error retrieving GPU stats"

/-- What the four `psutil` calls of `get_system_usage` jointly yield for one
tick: either the four sampled readings — carried as the decimal strings
Python's f-string interpolation renders them to, since the program only ever
interpolates them — or an exception from any of the calls. -/
inductive SysReading where
  | ok (cpu cpu_ghz ram_gb max_ram_gb : String)
  | err
deriving DecidableEq, Repr

/-- `get_system_usage`: on any exception all four values degrade to the
string `"Error"`; nothing is thrown. -/
def get_system_usage : SysReading → String × String × String × String
  | .ok cpu cpu_ghz ram_gb max_ram_gb => (cpu, cpu_ghz, ram_gb, max_ram_gb)
  | .err => ("Error", "Error", "Error", "Error")

/-- A wall-clock reading, the input `datetime.datetime.now()` provides to
`get_current_time`. -/
structure ClockTime where
  hh : ℕ
  mm : ℕ
  ss : ℕ

/-- Two-digit zero-padded field, as the `%H`/`%M`/`%S`/`%I` directives
render. -/
def pad2 (n : ℕ) : String :=
  if n < 10 then "0" ++ toString n else toString n

/-- `get_current_time`: `%H:%M:%S` in 24-hour mode, `%I:%M:%S %p` in
12-hour mode. -/
def get_current_time (is_24hr : Bool) (now : ClockTime) : String :=
  if is_24hr then
    pad2 now.hh ++ ":" ++ pad2 now.mm ++ ":" ++ pad2 now.ss
  else
    let h12 := if now.hh % 12 = 0 then 12 else now.hh % 12
    pad2 h12 ++ ":" ++ pad2 now.mm ++ ":" ++ pad2 now.ss ++ " " ++
      (if now.hh < 12 then "AM" else "PM")

/-! ## Message composer -/

/-- The seven checkbox states plus the time-format flag, as
`send_data_to_vrchat` reads them at the start of a tick. -/
structure Toggles where
  cpu : Bool
  ram : Bool
  gpu : Bool
  media : Bool
  time : Bool
  linux : Bool
  amdgpu : Bool
  is_24hr : Bool
deriving DecidableEq, Repr

/-- The CPU line `f"💻 {cpu_usage}% @ {cpu_ghz}GHz\n"`. -/
def cpuFragment (cpu_usage cpu_ghz : String) : String :=
  "💻 " ++ cpu_usage ++ "% @ " ++ cpu_ghz ++ "GHz\n"

/-- The RAM line `f"💾 {ram_gb}GB / {max_ram_gb}GB\n"`. -/
def ramFragment (ram_gb max_ram_gb : String) : String :=
  "💾 " ++ ram_gb ++ "GB / " ++ max_ram_gb ++ "GB\n"

/-- Lines 254–268 of `send_data_to_vrchat`: the sequential `message +=`
assembly over the tick's local values.  Note the first guard is on the
truthiness of `linux_distro`, not on the checkbox. -/
def composeMessage (t : Toggles) (linux_distro current_time media_info cpu_usage cpu_ghz
    ram_gb max_ram_gb gpu_usage amdgpu_usage : String) : String :=
  let m := ""
  let m := if linux_distro ≠ "" then m ++ linux_distro ++ "\n" else m
  let m := if t.time then m ++ "⏰ " ++ current_time ++ "\n" else m
  let m := if t.media then m ++ media_info ++ "\n" else m
  let m := if t.cpu then m ++ cpuFragment cpu_usage cpu_ghz else m
  let m := if t.ram then m ++ ramFragment ram_gb max_ram_gb else m
  let m := if t.gpu then m ++ gpu_usage else m
  let m := if t.amdgpu then m ++ amdgpu_usage else m
  m

/-- Python `message[:MAX_MESSAGE_LENGTH]`. -/
def strTake (s : String) (n : ℕ) : String :=
  ⟨s.data.take n⟩

/-- Lines 270–272: hard truncation to `MAX_MESSAGE_LENGTH = 144` code
points, applied only when the assembled message is strictly longer. -/
def truncateMessage (s : String) : String :=
  if 144 < s.length then strTake s 144 else s

/-- The spec's §4.2 reading of the Composer: the ordered `(toggle, fragment)`
list — OS identity, clock, media, CPU, RAM, NVIDIA GPU, AMD GPU — filtered
to the enabled entries, line-break-terminated except the two GPU entries. -/
def fragmentList (t : Toggles) (distroFrag timeStr mediaFrag cpu_usage cpu_ghz
    ram_gb max_ram_gb gpuFrag amdFrag : String) : List String :=
  (([(t.linux, distroFrag ++ "\n"),
     (t.time, "⏰ " ++ timeStr ++ "\n"),
     (t.media, mediaFrag ++ "\n"),
     (t.cpu, cpuFragment cpu_usage cpu_ghz),
     (t.ram, ramFragment ram_gb max_ram_gb),
     (t.gpu, gpuFrag),
     (t.amdgpu, amdFrag)] : List (Bool × String)).filter (fun p => p.1)).map (fun p => p.2)

/-- The spec-side Composer output: concatenation of the enabled fragments in
the fixed priority order. -/
def composeSpec (t : Toggles) (distroFrag timeStr mediaFrag cpu_usage cpu_ghz
    ram_gb max_ram_gb gpuFrag amdFrag : String) : String :=
  (fragmentList t distroFrag timeStr mediaFrag cpu_usage cpu_ghz
    ram_gb max_ram_gb gpuFrag amdFrag).foldr (fun a b => a ++ b) ""

/-! ## Transmission loop and one-shot sender -/

/-- Everything outside the process that one tick of the loop reads. -/
structure Env where
  osRelease : Option (List String)
  bus : MediaBus
  sys : SysReading
  nvidiaOut : Option String
  amdOut : Option String
  vramTotalFile : Option String
  now : ClockTime

/-- Lines 247–268: one tick's reader calls and message assembly.  The media
reader is the one reader that can let an exception escape (see `mediaLoop`),
which would kill the sending thread, hence the `Except`. -/
def rawMessage (t : Toggles) (env : Env) : Except PyError String := do
  let current_time := if t.time then get_current_time t.is_24hr env.now else ""
  let media_info ← if t.media then get_media_info env.bus else .ok ""
  let u := if t.cpu || t.ram then get_system_usage env.sys else ("", "", "", "")
  let gpu_usage := if t.gpu then get_gpu_usage env.nvidiaOut else ""
  let linux_distro := if t.linux then get_linux_distro env.osRelease else ""
  let amdgpu_usage := if t.amdgpu then get_amdgpu_usage env.amdOut env.vramTotalFile else ""
  .ok (composeMessage t linux_distro current_time media_info u.1 u.2.1 u.2.2.1 u.2.2.2
    gpu_usage amdgpu_usage)

/-- One tick's outbound text: the assembled message after truncation. -/
def sentMessage (t : Toggles) (env : Env) : Except PyError String :=
  Except.map truncateMessage (rawMessage t env)

/-- The payload of one `osc_client.send_message("/chatbox/input", [text,
save, notify])` call. -/
structure SendEvent where
  text : String
  saveToHistory : Bool
  triggerNotification : Bool
deriving DecidableEq, Repr

/-- Observable actions of the loop and the one-shot sender.  `sleep` carries
tenths of a second, so the loop's `time.sleep(1.5)` is `sleep 15`.  The
`ok` flag of `send` records whether the network call succeeded or raised
(the exception is caught either way). -/
inductive Event where
  | send (req : SendEvent) (ok : Bool)
  | sleep (tenths : ℤ)
deriving DecidableEq, Repr

/-- The `while self.is_sending` loop of `send_data_to_vrchat`, driven by a
schedule: one `(environment, network-send-succeeded)` pair per iteration the
flag allows.  The result is the emitted event trace plus the exception that
killed the thread, if one escaped a reader. -/
def send_data_to_vrchat (t : Toggles) : List (Env × Bool) → List Event × Option PyError
  | [] => ([], none)
  | (env, sendOk) :: rest =>
    match sentMessage t env with
    | .error e => ([], some e)
    | .ok message =>
      let r := send_data_to_vrchat t rest
      (Event.send ⟨message, true, false⟩ sendOk :: Event.sleep 15 :: r.1, r.2)

/-- `get_message_duration`: `int()` of the duration entry, 5 on
`ValueError`. -/
def get_message_duration (entry : String) : ℤ :=
  (pyIntStr entry).getD 5

/-- `send_chat_message`: strip the chat widget's text; when non-empty, send
it once with the fixed booleans and block for the configured duration
(`sleep` in tenths of a second); otherwise do nothing. -/
def send_chat_message (chatText durationEntry : String) (sendOk : Bool) : List Event :=
  let message := pyStrip chatText
  if message ≠ "" then
    [Event.send ⟨message, true, false⟩ sendOk,
     Event.sleep (10 * get_message_duration durationEntry)]
  else []

/-- The texts of the send events of a trace, in order. -/
def sentTexts (evs : List Event) : List String :=
  evs.filterMap (fun e =>
    match e with
    | Event.send req _ => some req.text
    | _ => none)

/-- Every send event of the trace carries `saveToHistory = true` and
`triggerNotification = false`. -/
def fixedBooleans (evs : List Event) : Prop :=
  ∀ req ok, Event.send req ok ∈ evs → req.saveToHistory = true ∧ req.triggerNotification = false

deriving instance DecidableEq for Except

/-! ## Helper lemmas -/

theorem str_data_append (s t : String) : (s ++ t).data = s.data ++ t.data := rfl

theorem str_ext {s t : String} (h : s.data = t.data) : s = t := by
  cases s
  cases t
  exact congrArg String.mk h

theorem get_linux_distro_ne_empty (f : Option (List String)) : get_linux_distro f ≠ "" := by
  intro h
  have hd := congrArg String.data h
  cases f with
  | none => exact absurd hd (by decide)
  | some lines =>
    rw [get_linux_distro] at hd
    rw [str_data_append, str_data_append] at hd
    simp at hd

/-- The truncation step: over the cap the output is the 144-code-point
prefix, at or under the cap it is the identity. -/
theorem truncate_spec (s : String) :
    (144 < s.length → (truncateMessage s).length = 144 ∧ ∃ r, s = truncateMessage s ++ r)
    ∧ (s.length ≤ 144 → truncateMessage s = s) := by
  have hs : s.length = s.data.length := rfl
  constructor
  · intro h
    rw [truncateMessage, if_pos h]
    constructor
    · have h1 : (strTake s 144).length = (s.data.take 144).length := rfl
      rw [h1, List.length_take]
      omega
    · refine ⟨⟨s.data.drop 144⟩, str_ext ?_⟩
      rw [str_data_append]
      exact (List.take_append_drop 144 s.data).symm
  · intro h
    rw [truncateMessage, if_neg (by omega)]

/-- The sequential assembly of lines 254–268 equals the spec's
filter-and-join over the ordered fragment list, provided the OS-identity
local is non-empty exactly when its checkbox is on — which is how
`send_data_to_vrchat` computes it. -/
theorem compose_eq_spec (t : Toggles) (ld ct mi cu cg rg mrg gu au : String)
    (h1 : t.linux = true → ld ≠ "") (h2 : t.linux = false → ld = "") :
    composeMessage t ld ct mi cu cg rg mrg gu au =
      composeSpec t ld ct mi cu cg rg mrg gu au := by
  obtain ⟨c, r, g, me, ti, li, am, h24⟩ := t
  cases li with
  | true =>
    have hld : ¬(ld = "") := h1 rfl
    cases ti <;> cases me <;> cases c <;> cases r <;> cases g <;> cases am <;>
      (apply str_ext;
       simp [composeMessage, composeSpec, fragmentList, cpuFragment, ramFragment, hld,
         str_data_append, List.append_assoc])
  | false =>
    have hld : ld = "" := h2 rfl
    subst hld
    cases ti <;> cases me <;> cases c <;> cases r <;> cases g <;> cases am <;>
      (apply str_ext;
       simp [composeMessage, composeSpec, fragmentList, cpuFragment, ramFragment,
         str_data_append, List.append_assoc])

/-- Any fragment the player loop yields contains a hyphen (from the fixed
`" - "` separator between title and artist). -/
theorem mediaLoop_dash : ∀ (ps : List PlayerQ) (f : String),
    mediaLoop ps = .ok (some f) → ('-' : Char) ∈ f.data := by
  intro ps
  induction ps with
  | nil => intro f h; exact absurd h (by simp [mediaLoop])
  | cons p rest ih =>
    intro f h
    cases p with
    | raises => exact ih f (by simpa [mediaLoop] using h)
    | meta m =>
      rw [mediaLoop] at h
      cases ha : m.artist.getD ["Unknown Artist"] with
      | nil => rw [ha] at h; simp at h
      | cons a as =>
        rw [ha] at h
        simp only [Except.ok.injEq, Option.some.injEq] at h
        rw [← h, str_data_append, str_data_append, str_data_append]
        have : ('-' : Char) ∈ " - ".data := by decide
        simp [List.mem_append, this]

/-- When no part carries a `vram` key with at least three tokens, the scan
finishes without an exception and leaves `vram_mb_used` unassigned. -/
theorem amdScan_no_vram : ∀ (parts : List (List Char)) (g : Option (List Char)),
    hasVram parts = false → ∃ g', amdScan parts g none = some (g', none) := by
  intro parts
  induction parts with
  | nil => exact fun g _ => ⟨g, rfl⟩
  | cons part rest ih =>
    intro g h
    rw [hasVram, List.any_cons, Bool.or_eq_false_iff] at h
    obtain ⟨hp, hr⟩ := h
    have hrest : hasVram rest = false := hr
    cases hts : pySplitWs part with
    | nil =>
      obtain ⟨g', hg'⟩ := ih g hrest
      exact ⟨g', by simp only [amdScan, hts]; exact hg'⟩
    | cons t0 ts =>
      by_cases hg : t0.map Char.toLower = "gpu".data
      · cases ts with
        | nil =>
          obtain ⟨g', hg'⟩ := ih g hrest
          exact ⟨g', by simp only [amdScan, hts, hg, if_pos]; exact hg'⟩
        | cons t1 ts' =>
          obtain ⟨g', hg'⟩ := ih (some (t1.filter (fun c => c ≠ '%'))) hrest
          exact ⟨g', by simp only [amdScan, hts, hg, if_pos]; exact hg'⟩
      · by_cases hv : t0.map Char.toLower = "vram".data
        · cases ts with
          | nil =>
            obtain ⟨g', hg'⟩ := ih g hrest
            exact ⟨g', by simp only [amdScan, hts]; rw [if_neg hg, if_pos hv]; exact hg'⟩
          | cons t1 ts' =>
            cases ts' with
            | nil =>
              obtain ⟨g', hg'⟩ := ih g hrest
              exact ⟨g', by simp only [amdScan, hts]; rw [if_neg hg, if_pos hv]; exact hg'⟩
            | cons t2 ts'' =>
              rw [hts] at hp
              simp [hv] at hp
        · obtain ⟨g', hg'⟩ := ih g hrest
          exact ⟨g', by simp only [amdScan, hts]; rw [if_neg hg, if_neg hv]; exact hg'⟩

/-! ## Claim theorems -/

/-- C1: for every composed message, if the assembled concatenation exceeds
144 code points the loop's output has length exactly 144 and is a prefix of
the untruncated concatenation; at or under 144 the output is the
concatenation unmodified. -/
theorem composer_truncation_C1 (t : Toggles) (ld ct mi cu cg rg mrg gu au : String) :
    (144 < (composeMessage t ld ct mi cu cg rg mrg gu au).length →
      (truncateMessage (composeMessage t ld ct mi cu cg rg mrg gu au)).length = 144 ∧
      ∃ r, composeMessage t ld ct mi cu cg rg mrg gu au =
        truncateMessage (composeMessage t ld ct mi cu cg rg mrg gu au) ++ r)
    ∧ ((composeMessage t ld ct mi cu cg rg mrg gu au).length ≤ 144 →
      truncateMessage (composeMessage t ld ct mi cu cg rg mrg gu au) =
        composeMessage t ld ct mi cu cg rg mrg gu au) :=
  truncate_spec _

set_option maxRecDepth 4096 in
/-- C1 witness: a 200-character media fragment is cut to exactly 144 with the
output a prefix; a short message passes through unmodified. -/
theorem composer_truncation_C1_witness :
    ((truncateMessage (composeMessage ⟨false, false, false, true, false, false, false, true⟩
        "" "" (String.mk (List.replicate 200 'a')) "" "" "" "" "" "")).length = 144 ∧
      ∃ r, composeMessage ⟨false, false, false, true, false, false, false, true⟩
        "" "" (String.mk (List.replicate 200 'a')) "" "" "" "" "" "" =
        truncateMessage (composeMessage ⟨false, false, false, true, false, false, false, true⟩
          "" "" (String.mk (List.replicate 200 'a')) "" "" "" "" "" "") ++ r)
    ∧ truncateMessage (composeMessage ⟨false, false, false, true, false, false, false, true⟩
        "" "" "hi" "" "" "" "" "" "") =
      composeMessage ⟨false, false, false, true, false, false, false, true⟩
        "" "" "hi" "" "" "" "" "" "" :=
  ⟨(composer_truncation_C1 ⟨false, false, false, true, false, false, false, true⟩
      "" "" (String.mk (List.replicate 200 'a')) "" "" "" "" "" "").1 (by decide),
   (composer_truncation_C1 ⟨false, false, false, true, false, false, false, true⟩
      "" "" "hi" "" "" "" "" "" "").2 (by decide)⟩

/-- C2: for every toggle subset, one tick's assembled message is exactly the
concatenation of the enabled sources' fragments in the fixed priority order
(OS identity, clock, media, CPU, RAM, NVIDIA GPU, AMD GPU), line-break
terminated except the two GPU fragments, with every disabled source's
fragment omitted. -/
theorem composer_order_C2 (t : Toggles) (env : Env) (mi : String)
    (hm : get_media_info env.bus = .ok mi) :
    rawMessage t env = .ok (composeSpec t
      (get_linux_distro env.osRelease)
      (get_current_time t.is_24hr env.now)
      mi
      (get_system_usage env.sys).1 (get_system_usage env.sys).2.1
      (get_system_usage env.sys).2.2.1 (get_system_usage env.sys).2.2.2
      (get_gpu_usage env.nvidiaOut)
      (get_amdgpu_usage env.amdOut env.vramTotalFile)) := by
  have hD := get_linux_distro_ne_empty env.osRelease
  obtain ⟨c, r, g, me, ti, li, am, h24⟩ := t
  cases me <;> cases li <;> cases ti <;> cases c <;> cases r <;> cases g <;> cases am <;>
    (simp only [rawMessage, hm, Except.bind]
     refine congrArg Except.ok (str_ext ?_)
     simp [composeMessage, composeSpec, fragmentList, cpuFragment, ramFragment, hD,
       str_data_append, List.append_assoc])

/-- C2 witness: a fully concrete tick with every toggle on. -/
theorem composer_order_C2_witness :
    rawMessage ⟨true, true, true, true, true, true, true, true⟩
      ⟨some ["NAME=\"Arch Linux\""], some [], SysReading.ok "1" "2.0" "3.0" "4.0",
        none, none, none, ⟨10, 20, 30⟩⟩ =
      .ok (composeSpec ⟨true, true, true, true, true, true, true, true⟩
        (get_linux_distro (some ["NAME=\"Arch Linux\""]))
        (get_current_time true ⟨10, 20, 30⟩)
        "🎵 No media playing"
        (get_system_usage (SysReading.ok "1" "2.0" "3.0" "4.0")).1
        (get_system_usage (SysReading.ok "1" "2.0" "3.0" "4.0")).2.1
        (get_system_usage (SysReading.ok "1" "2.0" "3.0" "4.0")).2.2.1
        (get_system_usage (SysReading.ok "1" "2.0" "3.0" "4.0")).2.2.2
        (get_gpu_usage none)
        (get_amdgpu_usage none none)) :=
  composer_order_C2 ⟨true, true, true, true, true, true, true, true⟩
    ⟨some ["NAME=\"Arch Linux\""], some [], SysReading.ok "1" "2.0" "3.0" "4.0",
      none, none, none, ⟨10, 20, 30⟩⟩ "🎵 No media playing" (by decide)

/-- C3: on a reader exception `get_system_usage` returns the four-tuple of
`"Error"` sentinels rather than throwing; the CPU and RAM lines the Composer
then renders contain the literal substring `"Error"` in place of the
numbers, are not empty lines, and the tick still assembles a message (no
exception escapes). -/
theorem sys_error_C3 :
    get_system_usage SysReading.err = ("Error", "Error", "Error", "Error")
    ∧ cpuFragment (get_system_usage SysReading.err).1 (get_system_usage SysReading.err).2.1 =
        "💻 Error% @ ErrorGHz\n"
    ∧ ramFragment (get_system_usage SysReading.err).2.2.1 (get_system_usage SysReading.err).2.2.2 =
        "💾 ErrorGB / ErrorGB\n"
    ∧ containsStr "Error" "💻 Error% @ ErrorGHz" = true
    ∧ containsStr "Error" "💾 ErrorGB / ErrorGB" = true
    ∧ "💻 Error% @ ErrorGHz" ≠ ""
    ∧ "💾 ErrorGB / ErrorGB" ≠ ""
    ∧ rawMessage ⟨true, true, false, false, false, false, false, true⟩
        ⟨none, some [], SysReading.err, none, none, none, ⟨0, 0, 0⟩⟩ =
        .ok "💻 Error% @ ErrorGHz\n💾 ErrorGB / ErrorGB\n" := by
  refine ⟨rfl, rfl, rfl, by decide, by decide, by decide, by decide, by decide⟩

/-- C4 counterexample: on the claim's own example input
`"12:34 : gpu 57%, vram 1.2 3 512.0mb"` the AMD reader does NOT return a
fragment of the form `🎮 57% | 0.5GB / <total>GB`; it returns the parse-miss
error fragment.  The code cuts at the FIRST colon (leaving `34 : gpu 57%`
whose first token is `34`, so the `gpu` key is never matched), and the
`vram` part's `tokens[2]` is `3`, not the memory-with-unit sub-token. -/
theorem amd_reader_C4_counterexample :
    get_amdgpu_usage (some "12:34 : gpu 57%, vram 1.2 3 512.0mb") (some "8589934592") =
      "🎮 Error retrieving GPU stats"
    ∧ ¬ ∃ tot, get_amdgpu_usage (some "12:34 : gpu 57%, vram 1.2 3 512.0mb")
        (some "8589934592") = "🎮 57% | 0.5GB / " ++ tot ++ "GB" := by
  have he : get_amdgpu_usage (some "12:34 : gpu 57%, vram 1.2 3 512.0mb")
      (some "8589934592") = "🎮 Error retrieving GPU stats" := by decide
  refine ⟨he, ?_⟩
  rintro ⟨tot, h⟩
  rw [he] at h
  have h2 : ("🎮 Error retrieving GPU stats").data =
      "🎮 57% | 0.5GB / ".data ++ (tot.data ++ "GB".data) := by
    have := congrArg String.data h
    rw [str_data_append, str_data_append, List.append_assoc] at this
    exact this
  have h3 : ("🎮 Error retrieving GPU stats").data.getD 2 ' ' =
      ("🎮 57% | 0.5GB / ".data ++ (tot.data ++ "GB".data)).getD 2 ' ' :=
    congrArg (fun l => l.getD 2 ' ') h2
  rw [List.getD_append _ _ _ _ (by decide)] at h3
  exact absurd h3 (by decide)

/-- C4 amended: on a `radeontop`-shaped input with a single-colon timestamp
and a `vram` part whose token at index 2 is the memory-with-unit string —
e.g. `"1234.5: gpu 57%, vram 57% 512.0mb"` — the reader yields
`🎮 57% | 0.5GB / <total>GB`; and for any input with no `vram` token (no
part whose key is `vram` with at least three tokens) it returns the fixed
parse-miss error fragment. -/
theorem amd_reader_C4_amended :
    get_amdgpu_usage (some "1234.5: gpu 57%, vram 57% 512.0mb") (some "8589934592") =
      "🎮 57% | 0.5GB / 8.0GB"
    ∧ ∀ (out : String) (vf : Option String), hasVram (amdParts out) = false →
        get_amdgpu_usage (some out) vf = "🎮 Error retrieving GPU stats" := by
  refine ⟨by decide, ?_⟩
  intro out vf h
  obtain ⟨g', hg'⟩ := amdScan_no_vram (amdParts out) none h
  cases g' <;> simp [get_amdgpu_usage, hg']

/-- C4 witness: a concrete input with a `gpu` token but no `vram` token. -/
theorem amd_reader_C4_witness :
    get_amdgpu_usage (some "gpu 57%") none = "🎮 Error retrieving GPU stats" :=
  amd_reader_C4_amended.2 "gpu 57%" none (by decide)

/-- C5 counterexample: with the bus reachable and zero MPRIS players
registered, the media reader's fragment is `"🎵 No media playing"` — not
the literal string `"no media playing"` the claim names. -/
theorem media_reader_C5_counterexample :
    get_media_info (some []) = .ok "🎵 No media playing"
    ∧ get_media_info (some []) ≠ .ok "no media playing" :=
  ⟨by decide, by decide⟩

/-- C5 amended: with the bus reachable and zero MPRIS players registered the
media reader returns exactly the fragment `"🎵 No media playing"`, and the
`"🎵 No media player detected"` fragment is returned exactly when the bus
itself is unreachable. -/
theorem media_reader_C5_amended :
    get_media_info (some []) = .ok "🎵 No media playing"
    ∧ ∀ bus : MediaBus,
        get_media_info bus = .ok "🎵 No media player detected" ↔ bus = none := by
  refine ⟨by decide, ?_⟩
  intro bus
  constructor
  · intro h
    match bus with
    | none => rfl
    | some ps =>
      exfalso
      simp only [get_media_info] at h
      cases hl : mediaLoop ps with
      | error e => rw [hl] at h; exact absurd h (by simp)
      | ok o =>
        cases o with
        | none => rw [hl] at h; exact absurd h (by decide)
        | some f =>
          rw [hl] at h
          simp only [Except.ok.injEq] at h
          have hd := mediaLoop_dash ps f hl
          rw [h] at hd
          exact absurd hd (by decide)
  · intro h
    subst h
    rfl

/-- C5 witness: an unreachable bus yields the detected-fragment. -/
theorem media_reader_C5_witness :
    get_media_info (none : MediaBus) = .ok "🎵 No media player detected" :=
  (media_reader_C5_amended.2 none).mpr rfl

/-- C6: the one-shot sender does nothing at all — no send event, no sleep —
when the chat text strips to empty, and otherwise sends exactly once with
the fixed booleans and then blocks for the configured duration. -/
theorem one_shot_C6 (text durationEntry : String) (sendOk : Bool) :
    (pyStrip text = "" → send_chat_message text durationEntry sendOk = [])
    ∧ (pyStrip text ≠ "" → send_chat_message text durationEntry sendOk =
        [Event.send ⟨pyStrip text, true, false⟩ sendOk,
         Event.sleep (10 * get_message_duration durationEntry)]) := by
  constructor
  · intro h
    simp [send_chat_message, h]
  · intro h
    simp [send_chat_message, h]

/-- C6 witness: whitespace-only input does nothing; non-blank input sends
once and sleeps. -/
theorem one_shot_C6_witness :
    send_chat_message "   " "5" true = []
    ∧ send_chat_message " hi " "5" true =
        [Event.send ⟨pyStrip " hi ", true, false⟩ true,
         Event.sleep (10 * get_message_duration "5")] :=
  ⟨(one_shot_C6 "   " "5" true).1 (by decide),
   (one_shot_C6 " hi " "5" true).2 (by decide)⟩

/-- C7 counterexample: not every loop-body error is non-fatal.  A reachable
player whose metadata carries an empty `xesam:artist` list makes
`metadata.get('xesam:artist', ['Unknown Artist'])[0]` raise `IndexError`;
neither `except dbus.DBusException` handler catches it, the sending thread
dies, and the scheduled second tick never runs — even though its own network
send would have succeeded. -/
theorem loop_C7_counterexample :
    send_data_to_vrchat ⟨false, false, false, true, false, false, false, true⟩
      [(⟨none, some [PlayerQ.meta ⟨some "Song", some []⟩], SysReading.err,
          none, none, none, ⟨0, 0, 0⟩⟩, true),
       (⟨none, some [], SysReading.err, none, none, none, ⟨0, 0, 0⟩⟩, true)] =
      ([], some PyError.indexError) := by
  decide

/-- C7 amended: a network send exception during a tick is caught and does not
terminate the loop — the tick still performs exactly one send attempt,
still emits its 1.5-second sleep, and the remaining schedule runs
unchanged; but an exception escaping a reader (see the counterexample) is
fatal. -/
theorem loop_C7_amended (t : Toggles) (env : Env) (sendOk : Bool)
    (rest : List (Env × Bool)) (msg : String) (h : sentMessage t env = .ok msg) :
    send_data_to_vrchat t ((env, sendOk) :: rest) =
      (Event.send ⟨msg, true, false⟩ sendOk :: Event.sleep 15 ::
        (send_data_to_vrchat t rest).1, (send_data_to_vrchat t rest).2) := by
  simp [send_data_to_vrchat, h]

/-- C7 witness: a tick whose network send raises (`sendOk = false`) still
sleeps and terminates the schedule normally. -/
theorem loop_C7_witness :
    send_data_to_vrchat ⟨false, false, false, false, false, false, false, true⟩
      [(⟨none, none, SysReading.err, none, none, none, ⟨0, 0, 0⟩⟩, false)] =
      ([Event.send ⟨"", true, false⟩ false, Event.sleep 15], none) := by
  have h := loop_C7_amended ⟨false, false, false, false, false, false, false, true⟩
    ⟨none, none, SysReading.err, none, none, none, ⟨0, 0, 0⟩⟩ false [] "" (by decide)
  simpa using h

/-- C8 counterexample: with CPU and RAM on, everything else off, and the
system reader's mock values rendering as 23 / 3.2 / 7.5 / 16.0, the tick
does compose exactly `"💻 23% @ 3.2GHz\n💾 7.5GB / 16.0GB\n"` — but that
message's length (in the code points `len` and the 144-cap count) is 32,
not 34 as the claim states. -/
theorem tick_C8_counterexample :
    sentMessage ⟨true, true, false, false, false, false, false, true⟩
      ⟨none, none, SysReading.ok "23" "3.2" "7.5" "16.0", none, none, none, ⟨0, 0, 0⟩⟩ =
      .ok "💻 23% @ 3.2GHz\n💾 7.5GB / 16.0GB\n"
    ∧ ("💻 23% @ 3.2GHz\n💾 7.5GB / 16.0GB\n").length ≠ 34 :=
  ⟨by decide, by decide⟩

/-- C8 amended: same tick — composed message exactly
`"💻 23% @ 3.2GHz\n💾 7.5GB / 16.0GB\n"`, of length 32, under the 144 cap
and unmodified by truncation. -/
theorem tick_C8_amended :
    rawMessage ⟨true, true, false, false, false, false, false, true⟩
      ⟨none, none, SysReading.ok "23" "3.2" "7.5" "16.0", none, none, none, ⟨0, 0, 0⟩⟩ =
      .ok "💻 23% @ 3.2GHz\n💾 7.5GB / 16.0GB\n"
    ∧ sentMessage ⟨true, true, false, false, false, false, false, true⟩
      ⟨none, none, SysReading.ok "23" "3.2" "7.5" "16.0", none, none, none, ⟨0, 0, 0⟩⟩ =
      .ok "💻 23% @ 3.2GHz\n💾 7.5GB / 16.0GB\n"
    ∧ ("💻 23% @ 3.2GHz\n💾 7.5GB / 16.0GB\n").length = 32
    ∧ ("💻 23% @ 3.2GHz\n💾 7.5GB / 16.0GB\n").length ≤ 144
    ∧ truncateMessage "💻 23% @ 3.2GHz\n💾 7.5GB / 16.0GB\n" =
        "💻 23% @ 3.2GHz\n💾 7.5GB / 16.0GB\n" :=
  ⟨by decide, by decide, by decide, by decide, by decide⟩

/-- C9: every send the system ever performs — any tick of the loop under any
schedule, and any one-shot chat send — carries exactly
`saveToHistory = true` and `triggerNotificationSound = false`. -/
theorem fixed_booleans_C9 (t : Toggles) (sched : List (Env × Bool))
    (text durationEntry : String) (sendOk : Bool) :
    fixedBooleans (send_data_to_vrchat t sched).1
    ∧ fixedBooleans (send_chat_message text durationEntry sendOk) := by
  constructor
  · induction sched with
    | nil =>
      intro req ok h
      exact absurd h (by simp [send_data_to_vrchat])
    | cons p rest ih =>
      obtain ⟨env, so⟩ := p
      intro req ok h
      cases hs : sentMessage t env with
      | error e =>
        simp only [send_data_to_vrchat, hs] at h
        exact absurd h (by simp)
      | ok msg =>
        simp only [send_data_to_vrchat, hs] at h
        rw [List.mem_cons, List.mem_cons] at h
        rcases h with h | h | h
        · injection h with h1 h2
          subst h1
          exact ⟨rfl, rfl⟩
        · exact Event.noConfusion h
        · exact ih req ok h
  · intro req ok h
    by_cases hm : pyStrip text = ""
    · simp [send_chat_message, hm] at h
    · simp only [send_chat_message, if_pos hm] at h
      rw [List.mem_cons, List.mem_cons] at h
      rcases h with h | h | h
      · injection h with h1 h2
        subst h1
        exact ⟨rfl, rfl⟩
      · exact Event.noConfusion h
      · exact absurd h (by simp)

/-- C9 witness: the booleans of a concrete one-shot send, extracted through
the theorem. -/
theorem fixed_booleans_C9_witness :
    (⟨"hey", true, false⟩ : SendEvent).saveToHistory = true
    ∧ (⟨"hey", true, false⟩ : SendEvent).triggerNotification = false :=
  (fixed_booleans_C9 ⟨false, false, false, false, false, false, false, true⟩ []
    "hey" "5" true).2 ⟨"hey", true, false⟩ true (by decide)

/-- C10: the one-shot sender applies no length cap: any already-trimmed,
non-empty user text — of any length, in particular beyond 144 code points —
is sent exactly as entered, untruncated. -/
theorem one_shot_no_cap_C10 (text durationEntry : String) (sendOk : Bool)
    (h1 : pyStrip text = text) (h2 : text ≠ "") :
    sentTexts (send_chat_message text durationEntry sendOk) = [text] := by
  rw [send_chat_message, h1, if_pos h2]
  simp [sentTexts]

set_option maxRecDepth 4096 in
/-- C10 witness: a 150-character text goes out whole, past the 144 cap. -/
theorem one_shot_no_cap_C10_witness :
    sentTexts (send_chat_message (String.mk (List.replicate 150 'a')) "5" true) =
      [String.mk (List.replicate 150 'a')]
    ∧ 144 < (String.mk (List.replicate 150 'a')).length :=
  ⟨one_shot_no_cap_C10 (String.mk (List.replicate 150 'a')) "5" true
    (by decide) (by decide), by decide⟩
